import Mathlib

/-!
Shallow embedding of the debugger-attach flow of
`examples/debugger/attach.c` and of the SLURM remaining-time helper of
`src/mca/schizo/slurm/schizo_slurm.c`, together with theorems settling the
specification claims about them.

Machine integers are modelled as `Int`/`Nat`, with an explicit reduction
modulo 2^32 where 32-bit unsigned arithmetic matters.  Byte buffers are
`List Nat`, C strings are `List Char`.  Statuses of the PMIx/PRTE
control-plane calls are inputs to the embedded functions, so the theorems
quantify over every outcome of the external collaborators.
-/

/-- PMIX_SUCCESS status code (0 in the PMIx headers). -/
def PMIX_SUCCESS : Int := 0

/-- PMIX_STRING value-type tag.  The header defining the numeric value is not
part of the sources; the claims only compare the tag for (in)equality, so any
fixed value serves. -/
def PMIX_STRING : Int := 3

/-- PMIX_EVENT_ACTION_COMPLETE status, passed by `release_fn` to the event
completion callback.  The numeric value comes from a header outside the
sources; the claims only need it as a distinguished constant. -/
def PMIX_EVENT_ACTION_COMPLETE : Int := -331

/-- PMIX_RANK_WILDCARD, the rank value denoting all ranks of a namespace
(UINT32_MAX in the PMIx headers). -/
def PMIX_RANK_WILDCARD : Nat := 4294967295

/-! ## Stream Aggregator (`stdio_callback`, attach.c lines 118-147)

The globals `iof_data` (a `char *`, NULL before the first chunk) and
`iof_size` are modelled as a state record; `NULL` is `none`.  `realloc`
preserves the first `iof_size` bytes of the old buffer, then the chunk is
copied at offset `iof_size` and a terminating 0 byte is written at the new
end. -/

structure IofState where
  iof_data : Option (List Nat)
  iof_size : Nat
deriving DecidableEq

/-- Initial state of the aggregator globals: `iof_data = NULL`, `iof_size` 0. -/
def initIofState : IofState := ⟨none, 0⟩

/-- One invocation of `stdio_callback` with payload bytes `payload`. -/
def stdio_callback (st : IofState) (payload : List Nat) : IofState :=
  match st.iof_data with
  | none => ⟨some (payload ++ [0]), payload.length⟩
  | some d => ⟨some (d.take st.iof_size ++ payload ++ [0]), st.iof_size + payload.length⟩

/-- Delivering a sequence of chunks to `stdio_callback`, in order. -/
def deliverChunks (st : IofState) (cs : List (List Nat)) : IofState :=
  cs.foldl stdio_callback st

lemma deliverChunks_invariant (cs : List (List Nat)) :
    ∀ b : List Nat,
      deliverChunks ⟨some (b ++ [0]), b.length⟩ cs =
        ⟨some (b ++ cs.flatten ++ [0]), b.length + (cs.map List.length).sum⟩ := by
  induction cs with
  | nil => intro b; simp [deliverChunks]
  | cons c cs ih =>
    intro b
    have hstep : stdio_callback ⟨some (b ++ [0]), b.length⟩ c =
        ⟨some ((b ++ c) ++ [0]), (b ++ c).length⟩ := by
      simp [stdio_callback, List.take_left]
    have hfold : deliverChunks ⟨some (b ++ [0]), b.length⟩ (c :: cs) =
        deliverChunks (stdio_callback ⟨some (b ++ [0]), b.length⟩ c) cs := rfl
    rw [hfold, hstep, ih (b ++ c)]
    simp [List.append_assoc, Nat.add_assoc]

/-- C3: after delivering N chunks (N at least 1, i.e. the handler actually ran)
in order, the accumulated buffer is the byte-wise concatenation of the chunks
followed by exactly one terminating 0 byte, and the recorded length is the sum
of the chunk lengths. -/
theorem stdio_callback_accumulates (cs : List (List Nat)) (h : cs ≠ []) :
    (deliverChunks initIofState cs).iof_data = some (cs.flatten ++ [0]) ∧
    (deliverChunks initIofState cs).iof_size = (cs.map List.length).sum := by
  cases cs with
  | nil => exact absurd rfl h
  | cons c cs' =>
    have hfirst : deliverChunks initIofState (c :: cs') =
        deliverChunks ⟨some (c ++ [0]), c.length⟩ cs' := by
      simp [deliverChunks, stdio_callback, initIofState]
    rw [hfirst, deliverChunks_invariant cs' c]
    simp

/-- Witness for C3 at the concrete chunk sequence [[1,2],[3]]. -/
theorem stdio_callback_accumulates_witness :
    (deliverChunks initIofState [[1, 2], [3]]).iof_data = some [1, 2, 3, 0] ∧
    (deliverChunks initIofState [[1, 2], [3]]).iof_size = 3 := by
  have h := stdio_callback_accumulates [[1, 2], [3]] (by decide)
  simpa using h

/-! ## Namespace Resolver (`query_application_namespace`, attach.c lines 461-520)

The function builds a PMIX_QUERY_NAMESPACES query qualified by the launcher
namespace and a wildcard rank, issues it synchronously, checks the response
shape, and copies the first comma-delimited entry of the returned string into
the global `application_namespace`, 0-terminated.  The outcome of the two
fallible library calls (PMIX_ARGV_APPEND and PMIx_Query_info) and the
response records are inputs of the embedding. -/

/-- Index of the first comma in a string, as `strchr(s, ',')` computes it. -/
def strchr_comma : List Char → Option Nat
  | [] => none
  | c :: cs => if c = ',' then some 0 else (strchr_comma cs).map (· + 1)

/-- The terminating 0 character written after the copied namespace. -/
def NUL : Char := Char.ofNat 0

/-- The portion of the response string copied by `strncpy`: up to the first
comma when one exists, the whole string otherwise. -/
def query_parse (s : List Char) : List Char :=
  match strchr_comma s with
  | none => s
  | some i => s.take i

/-- Contents of the `application_namespace` global after the copy: the parsed
entry followed by the terminating 0 written at `application_namespace[len]`. -/
def stored_application_namespace (s : List Char) : List Char :=
  query_parse s ++ [NUL]

/-- The relevant shape of the `PMIx_Query_info` outcome: its status, the
number of returned records, and the value type and string payload of the
first record. -/
structure QueryResponse where
  rc : Int
  size : Nat
  vtype : Int
  vstring : List Char
deriving DecidableEq

/-- The full resolver: returns its C return code together with the
`application_namespace` global after the call (`ns0` is its prior contents,
left untouched on every failure path). -/
def query_application_namespace (argv_rc : Int) (resp : QueryResponse)
    (ns0 : List Char) : Int × List Char :=
  if argv_rc ≠ PMIX_SUCCESS then (-1, ns0)
  else if resp.rc ≠ PMIX_SUCCESS then (-1, ns0)
  else if resp.size ≠ 1 ∨ resp.vtype ≠ PMIX_STRING then (-1, ns0)
  else (0, stored_application_namespace resp.vstring)

lemma query_parse_eq_takeWhile (s : List Char) :
    query_parse s = s.takeWhile (fun c => !(c == ',')) := by
  induction s with
  | nil => rfl
  | cons c cs ih =>
    by_cases hc : c = ','
    · subst hc
      simp [query_parse, strchr_comma]
    · have hpred : (!(c == ',')) = true := by simp [hc]
      cases h : strchr_comma cs with
      | none =>
        have hcs : cs.takeWhile (fun c => !(c == ',')) = cs := by
          rw [← ih]; simp [query_parse, h]
        simp [query_parse, strchr_comma, hc, h, List.takeWhile_cons, hpred, hcs]
      | some i =>
        have hcs : cs.take i = cs.takeWhile (fun c => !(c == ',')) := by
          rw [← ih]; simp [query_parse, h]
        simp [query_parse, strchr_comma, hc, h, List.takeWhile_cons, hpred, ← hcs,
          List.take_succ_cons]

/-- C4: the resolver stores, 0-terminated, the prefix of the response string
up to (and excluding) the first comma, the whole string when no comma occurs;
in particular "app123,dbg456" yields "app123" and "app123" yields "app123". -/
theorem query_parse_first_entry :
    (∀ s : List Char,
        stored_application_namespace s =
          s.takeWhile (fun c => !(c == ',')) ++ [NUL]) ∧
    query_parse ("app123,dbg456".toList) = "app123".toList ∧
    query_parse ("app123".toList) = "app123".toList := by
  refine ⟨fun s => ?_, by decide, by decide⟩
  rw [stored_application_namespace, query_parse_eq_takeWhile]

/-- C5: whenever the query submission fails, the result cardinality is not
one, or the single value is not of string type, the resolver returns the
failure code -1 and leaves the `application_namespace` global unparsed. -/
theorem query_application_namespace_failure (argv_rc : Int)
    (resp : QueryResponse) (ns0 : List Char)
    (h : resp.rc ≠ PMIX_SUCCESS ∨ resp.size ≠ 1 ∨ resp.vtype ≠ PMIX_STRING) :
    query_application_namespace argv_rc resp ns0 = (-1, ns0) := by
  by_cases ha : argv_rc ≠ PMIX_SUCCESS
  · simp [query_application_namespace, ha]
  · rcases h with h | h
    · simp [query_application_namespace, ha, h]
    · by_cases hrc : resp.rc ≠ PMIX_SUCCESS
      · simp [query_application_namespace, ha, hrc]
      · simp only [query_application_namespace, if_neg ha, if_neg hrc]
        rw [if_pos h]

/-- Witness for C5: a query that came back with status -25 fails resolution
and leaves the namespace global untouched. -/
theorem query_application_namespace_failure_witness :
    query_application_namespace 0 ⟨-25, 1, PMIX_STRING, "app".toList⟩ ['x'] =
      (-1, ['x']) :=
  query_application_namespace_failure 0 ⟨-25, 1, PMIX_STRING, "app".toList⟩
    ['x'] (Or.inl (by decide))

/-! ## Attach Orchestrator (`attach_to_running_job`, attach.c lines 339-459,
and `main`, lines 281-337)

The control flow of `attach_to_running_job` over the outcomes of its
collaborator calls.  In the source the resolver's return value is discarded
(line 368: `query_application_namespace(nspace);`), so the spawn is attempted
unconditionally; a failed spawn returns the constant -1 (line 421) and skips
the remaining steps; after a successful spawn the I/O pull, the termination
watch registration and the blocking wait on the termination record's lock all
run, and the returned status is the termination-watch registration status
held in `mylock.status` (line 452), the last assignment to `rc`. -/

structure AttachEnv where
  argv_rc : Int
  resp : QueryResponse
  spawn_rc : Int
  dspace : List Char
  iof_reg_status : Int
  evreg_status : Int
deriving DecidableEq

/-- Which steps of the attach sequence ran, and the function's return value. -/
structure AttachTrace where
  query_result : Int × List Char
  spawn_attempted : Bool
  iof_pull_attempted : Bool
  watch_registered : Bool
  waited_for_termination : Bool
  ret : Int
deriving DecidableEq

/-- The attach orchestrator over collaborator outcomes `env`; `ns0` is the
prior contents of the `application_namespace` global. -/
def attach_to_running_job (env : AttachEnv) (ns0 : List Char) : AttachTrace :=
  let q := query_application_namespace env.argv_rc env.resp ns0
  if env.spawn_rc ≠ PMIX_SUCCESS then
    { query_result := q, spawn_attempted := true, iof_pull_attempted := false,
      watch_registered := false, waited_for_termination := false, ret := -1 }
  else
    { query_result := q, spawn_attempted := true, iof_pull_attempted := true,
      watch_registered := true, waited_for_termination := true,
      ret := env.evreg_status }

/-- An environment in which the namespace query itself fails (status -25)
while every later collaborator call succeeds. -/
def attachEnvQueryFail : AttachEnv :=
  ⟨0, ⟨-25, 1, PMIX_STRING, "app".toList⟩, 0, "debug.1".toList, 0, 0⟩

/-- Counterexample to C1: with a failing namespace resolution the daemon spawn
is still attempted, because line 368 discards the resolver's return value. -/
theorem attach_gating_counterexample :
    (attach_to_running_job attachEnvQueryFail []).query_result.1 = -1 ∧
    (attach_to_running_job attachEnvQueryFail []).spawn_attempted = true := by
  decide

/-- C1 as amended: the resolver's outcome is ignored and the spawn is always
attempted; a spawn failure skips the I/O registration, the termination watch
and the wait and returns the non-zero code -1; after a successful spawn all
remaining steps run and the returned status is the termination-watch
registration status. -/
theorem attach_steps_amended (env : AttachEnv) (ns0 : List Char) :
    (attach_to_running_job env ns0).spawn_attempted = true ∧
    (env.spawn_rc ≠ PMIX_SUCCESS →
      (attach_to_running_job env ns0).iof_pull_attempted = false ∧
      (attach_to_running_job env ns0).watch_registered = false ∧
      (attach_to_running_job env ns0).waited_for_termination = false ∧
      (attach_to_running_job env ns0).ret = -1) ∧
    (env.spawn_rc = PMIX_SUCCESS →
      (attach_to_running_job env ns0).iof_pull_attempted = true ∧
      (attach_to_running_job env ns0).watch_registered = true ∧
      (attach_to_running_job env ns0).waited_for_termination = true ∧
      (attach_to_running_job env ns0).ret = env.evreg_status) := by
  by_cases h : env.spawn_rc ≠ PMIX_SUCCESS
  · refine ⟨by simp [attach_to_running_job, h], fun _ => ?_, fun hs => absurd hs h⟩
    simp [attach_to_running_job, h]
  · rw [not_not] at h
    refine ⟨by simp [attach_to_running_job, h], fun hn => absurd h hn, fun _ => ?_⟩
    simp [attach_to_running_job, h]

/-- Witness for the amended C1, at an environment whose spawn fails with
status -3. -/
theorem attach_steps_amended_witness :
    (attach_to_running_job ⟨0, ⟨0, 1, PMIX_STRING, "app".toList⟩, -3,
        [], 0, 0⟩ []).iof_pull_attempted = false ∧
    (attach_to_running_job ⟨0, ⟨0, 1, PMIX_STRING, "app".toList⟩, -3,
        [], 0, 0⟩ []).ret = -1 := by
  have h := (attach_steps_amended
    ⟨0, ⟨0, 1, PMIX_STRING, "app".toList⟩, -3, [], 0, 0⟩ []).2.1 (by decide)
  exact ⟨h.1, h.2.2.2⟩

/-- An environment whose spawn call fails with the status -5. -/
def attachEnvSpawnFail : AttachEnv :=
  ⟨0, ⟨0, 1, PMIX_STRING, "app".toList⟩, -5, [], 0, 0⟩

/-- Counterexample to C6: when the spawn fails with status -5, the
orchestrator does abort, but it returns the fixed code -1 rather than the
underlying spawn status. -/
theorem attach_spawn_status_counterexample :
    attachEnvSpawnFail.spawn_rc = -5 ∧
    (attach_to_running_job attachEnvSpawnFail []).ret = -1 ∧
    ¬((attach_to_running_job attachEnvSpawnFail []).ret =
        attachEnvSpawnFail.spawn_rc) := by
  decide

/-- C6 as amended: a non-success spawn status aborts the attach sequence with
the fixed error code -1 (not the underlying spawn status); no I/O-forwarding
registration and no termination watch are performed, and the orchestrator does
not wait. -/
theorem attach_spawn_failure_aborts (env : AttachEnv) (ns0 : List Char)
    (h : env.spawn_rc ≠ PMIX_SUCCESS) :
    (attach_to_running_job env ns0).ret = -1 ∧
    (attach_to_running_job env ns0).iof_pull_attempted = false ∧
    (attach_to_running_job env ns0).watch_registered = false ∧
    (attach_to_running_job env ns0).waited_for_termination = false := by
  simp [attach_to_running_job, h]

/-- Witness for the amended C6 at a spawn failing with status -7. -/
theorem attach_spawn_failure_aborts_witness :
    (attach_to_running_job ⟨0, ⟨0, 1, PMIX_STRING, "app".toList⟩, -7,
        [], 0, 0⟩ []).ret = -1 ∧
    (attach_to_running_job ⟨0, ⟨0, 1, PMIX_STRING, "app".toList⟩, -7,
        [], 0, 0⟩ []).iof_pull_attempted = false ∧
    (attach_to_running_job ⟨0, ⟨0, 1, PMIX_STRING, "app".toList⟩, -7,
        [], 0, 0⟩ []).watch_registered = false ∧
    (attach_to_running_job ⟨0, ⟨0, 1, PMIX_STRING, "app".toList⟩, -7,
        [], 0, 0⟩ []).waited_for_termination = false :=
  attach_spawn_failure_aborts
    ⟨0, ⟨0, 1, PMIX_STRING, "app".toList⟩, -7, [], 0, 0⟩ [] (by decide)

/-! ## Process boundary (`main`, attach.c lines 281-337)

`main` exits 1 with a usage message when `argc < 2`, exits with the init
status when `PMIx_tool_init` fails, and otherwise runs the attach sequence,
prints an error line if it failed, and then overwrites `rc` with the return
status of `PMIx_IOF_deregister` (line 327) before `return(rc)` (line 336):
the process exit code is the deregistration status, not the attach status. -/

structure MainResult where
  exit_code : Int
  usage_printed : Bool
  attach_error_printed : Bool
deriving DecidableEq

/-- The observable outcome of `main` over the argument count, the
`PMIx_tool_init` status, the attach collaborator outcomes and the
`PMIx_IOF_deregister` status. -/
def main_fn (argc : Nat) (init_rc : Int) (env : AttachEnv) (dereg_rc : Int) :
    MainResult :=
  if argc < 2 then ⟨1, true, false⟩
  else if init_rc ≠ PMIX_SUCCESS then ⟨init_rc, false, false⟩
  else ⟨dereg_rc, false,
    decide ((attach_to_running_job env []).ret ≠ PMIX_SUCCESS)⟩

/-- An environment whose spawn fails with status -5, used to drive `main_fn`
into a failing attach sequence. -/
def attachEnvMainFail : AttachEnv :=
  ⟨0, ⟨0, 1, PMIX_STRING, "app".toList⟩, -5, [], 0, 0⟩

/-- Counterexample to C2: the attach sequence fails (non-zero status, the
failure is even printed), yet with a successful I/O deregistration the
process exits 0, because line 327 overwrites `rc` before `return(rc)`. -/
theorem main_exit_code_counterexample :
    (attach_to_running_job attachEnvMainFail []).ret ≠ PMIX_SUCCESS ∧
    (main_fn 2 PMIX_SUCCESS attachEnvMainFail PMIX_SUCCESS).attach_error_printed
      = true ∧
    (main_fn 2 PMIX_SUCCESS attachEnvMainFail PMIX_SUCCESS).exit_code = 0 := by
  decide

/-- C2 as amended: a missing positional argument prints a usage message and
exits 1; a `PMIx_tool_init` failure exits with the init status; otherwise the
process exit code equals the status of the final `PMIx_IOF_deregister` call,
which overwrites the attach-sequence status. -/
theorem main_exit_code_amended (argc : Nat) (init_rc : Int) (env : AttachEnv)
    (dereg_rc : Int) :
    (argc < 2 → main_fn argc init_rc env dereg_rc = ⟨1, true, false⟩) ∧
    (2 ≤ argc → init_rc ≠ PMIX_SUCCESS →
      main_fn argc init_rc env dereg_rc = ⟨init_rc, false, false⟩) ∧
    (2 ≤ argc → init_rc = PMIX_SUCCESS →
      (main_fn argc init_rc env dereg_rc).exit_code = dereg_rc ∧
      (main_fn argc init_rc env dereg_rc).usage_printed = false) := by
  refine ⟨fun h => by simp [main_fn, h], fun h hi => ?_, fun h hi => ?_⟩
  · have h2 : ¬ argc < 2 := by omega
    simp [main_fn, h2, hi]
  · have h2 : ¬ argc < 2 := by omega
    simp [main_fn, h2, hi]

/-- Witness for the amended C2: with one argument missing the process exits 1
with a usage message. -/
theorem main_exit_code_amended_witness :
    main_fn 1 PMIX_SUCCESS attachEnvMainFail 0 = ⟨1, true, false⟩ :=
  (main_exit_code_amended 1 PMIX_SUCCESS attachEnvMainFail 0).1 (by decide)

/-! ## Termination Watcher (`release_fn`, attach.c lines 156-215, registered
at lines 441-453 with a PMIX_EVENT_RETURN_OBJECT and a
PMIX_EVENT_AFFECTED_PROC qualifier)

`release_fn` scans the delivered info array for the return-object
back-reference, an optional exit code, and the affected process.  If the
back-reference is absent it logs the protocol error, acknowledges the event
pipeline with PMIX_SUCCESS, and returns without touching any lock.  If it is
present, the exit code (when supplied) is copied into the termination record
with its presence flag set, the record's lock is woken (twice in the source:
lines 206 and 213), and the pipeline is acknowledged with
PMIX_EVENT_ACTION_COMPLETE. -/

structure PmixProc where
  nspace : List Char
  rank : Nat
deriving DecidableEq

/-- One entry of the info array delivered to `release_fn`.  `returnObject`
marks the PMIX_EVENT_RETURN_OBJECT entry (its payload is the termination
record itself, passed separately to the model), `exitCode` a PMIX_EXIT_CODE
entry, `affectedProc` a PMIX_EVENT_AFFECTED_PROC entry. -/
inductive TermInfo where
  | returnObject
  | exitCode (c : Int)
  | affectedProc (p : PmixProc)
  | otherKey
deriving DecidableEq

/-- The `myrel_t` termination record: the watched namespace, its Wait-Lock
(modelled by the number of wakeups so far), and the exit-code fields. -/
structure MyRel where
  nspace : List Char
  wake_count : Nat
  exit_code : Int
  exit_code_given : Bool
deriving DecidableEq

/-- Locals of `release_fn` after its scan loop over the info array: whether
the return object was seen, the last exit code and whether one was seen, and
the last affected process. -/
structure ReleaseScan where
  lock_found : Bool
  exit_code : Int
  found : Bool
  affected : Option PmixProc
deriving DecidableEq

def release_scan (infos : List TermInfo) : ReleaseScan :=
  infos.foldl
    (fun st i =>
      match i with
      | .returnObject => { st with lock_found := true }
      | .exitCode c => { st with exit_code := c, found := true }
      | .affectedProc p => { st with affected := some p }
      | .otherKey => st)
    ⟨false, 0, false, none⟩

/-- Outcome of one `release_fn` invocation: the termination record afterwards,
the status passed to the event-completion callback (`none` when the callback
pointer was NULL), and whether the missing-lock protocol error was logged. -/
structure ReleaseResult where
  rel : MyRel
  ack : Option Int
  lock_missing_logged : Bool
deriving DecidableEq

/-- One invocation of `release_fn` on record `rel` with delivered infos
`infos`; `cb_present` models a non-NULL completion callback. -/
def release_fn (rel : MyRel) (infos : List TermInfo) (cb_present : Bool) :
    ReleaseResult :=
  let s := release_scan infos
  if s.lock_found = false then
    { rel := rel, ack := if cb_present then some PMIX_SUCCESS else none,
      lock_missing_logged := true }
  else
    let rel1 := if s.found then
        { rel with exit_code := s.exit_code, exit_code_given := true }
      else rel
    let rel2 := { rel1 with wake_count := rel1.wake_count + 1 }
    let rel3 := { rel2 with wake_count := rel2.wake_count + 1 }
    { rel := rel3,
      ack := if cb_present then some PMIX_EVENT_ACTION_COMPLETE else none,
      lock_missing_logged := false }

/-- C9: without the return-object back-reference, `release_fn` logs the
protocol error, acknowledges the pipeline with PMIX_SUCCESS, and never wakes
the record's Wait-Lock; with it, a supplied exit code is copied into the
record with its presence flag set, the Wait-Lock is woken, and the pipeline
is acknowledged with PMIX_EVENT_ACTION_COMPLETE. -/
theorem release_fn_behavior (rel : MyRel) (infos : List TermInfo) :
    ((release_scan infos).lock_found = false →
      (release_fn rel infos true).rel = rel ∧
      (release_fn rel infos true).ack = some PMIX_SUCCESS ∧
      (release_fn rel infos true).lock_missing_logged = true) ∧
    ((release_scan infos).lock_found = true →
      rel.wake_count < (release_fn rel infos true).rel.wake_count ∧
      (release_fn rel infos true).ack = some PMIX_EVENT_ACTION_COMPLETE ∧
      (release_fn rel infos true).lock_missing_logged = false ∧
      ((release_scan infos).found = true →
        (release_fn rel infos true).rel.exit_code =
          (release_scan infos).exit_code ∧
        (release_fn rel infos true).rel.exit_code_given = true)) := by
  constructor
  · intro h
    simp [release_fn, h]
  · intro h
    by_cases hf : (release_scan infos).found
    · simp [release_fn, h, hf]
      omega
    · simp [release_fn, h, hf]
      omega

/-- Witness for C9: an event delivered without the back-reference (only an
exit code) acknowledges with PMIX_SUCCESS and leaves the record untouched. -/
theorem release_fn_behavior_witness :
    (release_fn ⟨"debug.1".toList, 0, 0, false⟩ [TermInfo.exitCode 3] true).rel
      = ⟨"debug.1".toList, 0, 0, false⟩ ∧
    (release_fn ⟨"debug.1".toList, 0, 0, false⟩ [TermInfo.exitCode 3] true).ack
      = some PMIX_SUCCESS :=
  have h := (release_fn_behavior ⟨"debug.1".toList, 0, 0, false⟩
    [TermInfo.exitCode 3]).1 (by decide)
  ⟨h.1, h.2.1⟩

/-! ## Qualifier filtering for the termination watch (C7)

The attach sequence registers `release_fn` for PMIX_ERR_JOB_TERMINATED with a
PMIX_EVENT_AFFECTED_PROC qualifier naming the daemon identity (namespace of
the spawned daemon, wildcard rank).  The filtering itself happens inside the
event-notification machinery, whose source is not under src/. -/

/-- Modelled from the spec: test whether a termination event's affected
process matches the registration's affected-process qualifier (section 4.6:
the subscription is "qualified to fire only for the specific daemon identity
(via an affected-process qualifier)"; the daemon identity carries the
wildcard rank, "representing all ranks of the daemon job"). -/
def proc_matches (qual ev : PmixProc) : Bool :=
  (qual.nspace == ev.nspace) &&
    ((qual.rank == PMIX_RANK_WILDCARD) || (qual.rank == ev.rank))

/-- A termination event as seen by the delivery machinery: the affected
process and the exit code the resource manager supplied, if any. -/
structure TermEvent where
  affected : PmixProc
  exit_code : Option Int
deriving DecidableEq

/-- Modelled from the spec: the event-delivery machinery (the
`PMIx_Register_event_handler` implementation, not under src/) invokes the
registered `release_fn` only for events whose affected process matches the
PMIX_EVENT_AFFECTED_PROC qualifier `watched`, delivering the registration's
return object and affected process plus any exit code among the infos;
non-matching events never reach the handler, so the record is untouched and
nothing is acknowledged by it. -/
def watcher_deliver (watched : PmixProc) (rel : MyRel) (ev : TermEvent)
    (cb_present : Bool) : ReleaseResult :=
  if proc_matches watched ev.affected then
    release_fn rel
      ([TermInfo.returnObject, TermInfo.affectedProc ev.affected] ++
        (match ev.exit_code with
         | some c => [TermInfo.exitCode c]
         | none => []))
      cb_present
  else
    { rel := rel, ack := none, lock_missing_logged := false }

/-- C7: a termination event whose affected-process identity does not match
the watched daemon identity never wakes the termination record's Wait-Lock —
the record is left exactly as it was. -/
theorem watcher_qualifier_filtering (watched : PmixProc) (rel : MyRel)
    (ev : TermEvent) (cb_present : Bool)
    (h : proc_matches watched ev.affected = false) :
    (watcher_deliver watched rel ev cb_present).rel = rel ∧
    (watcher_deliver watched rel ev cb_present).rel.wake_count =
      rel.wake_count := by
  simp [watcher_deliver, h]

/-- Witness for C7: an event for namespace "other.2" does not wake the lock
watching daemon namespace "debug.1". -/
theorem watcher_qualifier_filtering_witness :
    (watcher_deliver ⟨"debug.1".toList, PMIX_RANK_WILDCARD⟩
      ⟨"debug.1".toList, 0, 0, false⟩
      ⟨⟨"other.2".toList, 0⟩, some 1⟩ true).rel =
      ⟨"debug.1".toList, 0, 0, false⟩ :=
  (watcher_qualifier_filtering ⟨"debug.1".toList, PMIX_RANK_WILDCARD⟩
    ⟨"debug.1".toList, 0, 0, false⟩ ⟨⟨"other.2".toList, 0⟩, some 1⟩ true
    (by decide)).1

/-! ## I/O Forwarding registration callback (`iof_reg_callbk`, attach.c
lines 248-273)

The callback always stores the handler reference into `iof_handler_id`; it
wakes the Wait-Lock and records the status only on its first firing, guarded
by the `iof_registered` flag which that firing sets; the later deregistration
firing only logs and returns.  In the program the `cbdata` lock pointer is
always the address of `iof_lock`, hence non-NULL. -/

structure IofRegState where
  iof_registered : Bool
  iof_handler_id : Nat
deriving DecidableEq

/-- The `mylock_t` the caller blocks on: recorded status and wakeup count. -/
structure MyLock where
  status : Int
  wake_count : Nat
deriving DecidableEq

/-- One invocation of `iof_reg_callbk` with completion status `status` and
handler reference `ref`, on globals `st` and the caller's lock `lock`. -/
def iof_reg_callbk (st : IofRegState) (lock : MyLock) (status : Int)
    (ref : Nat) : IofRegState × MyLock :=
  let st1 := { st with iof_handler_id := ref }
  if st.iof_registered then (st1, lock)
  else ({ st1 with iof_registered := true },
    { status := status, wake_count := lock.wake_count + 1 })

/-- C8: once the already-registered flag is set, a later firing of
`iof_reg_callbk` returns without waking the Wait-Lock or touching its status;
only the first firing sets the flag, stores the status and wakes the waiting
thread. -/
theorem iof_reg_callbk_once (st : IofRegState) (lock : MyLock) (status : Int)
    (ref : Nat) :
    (st.iof_registered = true →
      (iof_reg_callbk st lock status ref).2 = lock ∧
      (iof_reg_callbk st lock status ref).1.iof_registered = true) ∧
    (st.iof_registered = false →
      (iof_reg_callbk st lock status ref).1.iof_registered = true ∧
      (iof_reg_callbk st lock status ref).2.status = status ∧
      (iof_reg_callbk st lock status ref).2.wake_count =
        lock.wake_count + 1) := by
  constructor
  · intro h; simp [iof_reg_callbk, h]
  · intro h; simp [iof_reg_callbk, h]

/-- Witness for C8: with the flag already set, the deregistration firing
leaves the lock untouched. -/
theorem iof_reg_callbk_once_witness :
    (iof_reg_callbk ⟨true, 4⟩ ⟨0, 1⟩ (-9) 7).2 = ⟨0, 1⟩ ∧
    (iof_reg_callbk ⟨true, 4⟩ ⟨0, 1⟩ (-9) 7).1.iof_registered = true :=
  (iof_reg_callbk_once ⟨true, 4⟩ ⟨0, 1⟩ (-9) 7).1 (by decide)

/-! ## SLURM remaining-time helper (`get_remaining_time`,
schizo_slurm.c lines 49-101)

`*timeleft` is set to UINT32_MAX before anything else, so every error return
leaves that default in place.  On success the first line of `squeue -h -j
<jobid> -o %L` is split on colons (by `prte_argv_split`, repository code not
under src/, modelled as the list of `strtol` values of the fields) and summed
last-field-first with weights 1, 60, 3600, 86400; when more than four fields
are present the result is forced to UINT32_MAX.  `tleft` is a `uint32_t`, so
every store into it reduces modulo 2^32.  The PRTE status constants are
defined in headers outside src/; the claims only distinguish success from the
individual error returns, so fixed distinct values serve. -/

def PRTE_SUCCESS : Int := 0

def PRTE_ERR_TAKE_NEXT_OPTION : Int := -44

def PRTE_ERR_OUT_OF_RESOURCE : Int := -2

def PRTE_ERR_FILE_OPEN_FAILURE : Int := -16

def PRTE_ERR_FILE_READ_FAILURE : Int := -17

def UINT32_MAX : Nat := 4294967295

/-- Store of a (64-bit) signed value into a `uint32_t`: reduce modulo 2^32. -/
def u32 (x : Int) : Int := x % 4294967296

/-- The environment `get_remaining_time` runs in: the SLURM_JOBID variable,
whether `prte_asprintf` and `popen` succeed, and the first output line of the
`squeue` subprocess as the `strtol` values of its colon-separated fields
(`none` models `fgets` returning NULL). -/
structure SlurmEnv where
  slurm_jobid : Option (List Char)
  asprintf_ok : Bool
  popen_ok : Bool
  squeue_fields : Option (List Int)
deriving DecidableEq

/-- The helper's return status together with the value stored in
`*timeleft`. -/
def get_remaining_time (env : SlurmEnv) : Int × Nat :=
  match env.slurm_jobid with
  | none => (PRTE_ERR_TAKE_NEXT_OPTION, UINT32_MAX)
  | some _ =>
    if env.asprintf_ok = false then (PRTE_ERR_OUT_OF_RESOURCE, UINT32_MAX)
    else if env.popen_ok = false then
      (PRTE_ERR_FILE_OPEN_FAILURE, UINT32_MAX)
    else
      match env.squeue_fields with
      | none => (PRTE_ERR_FILE_READ_FAILURE, UINT32_MAX)
      | some res =>
        let cnt := res.length
        let t0 := u32 (res.getD (cnt - 1) 0)
        let t1 := if 1 < cnt then u32 (t0 + 60 * res.getD (cnt - 2) 0) else t0
        let t2 := if 2 < cnt then u32 (t1 + 3600 * res.getD (cnt - 3) 0)
          else t1
        let t3 := if 3 < cnt then u32 (t2 + 24 * 3600 * res.getD (cnt - 4) 0)
          else t2
        let t4 := if 4 < cnt then ((UINT32_MAX : Nat) : Int) else t3
        (PRTE_SUCCESS, t4.toNat)

/-- C10: every error return (missing SLURM_JOBID, asprintf failure, popen
failure, fgets failure) reports UINT32_MAX; a successful run with up to four
colon-separated fields reports seconds + 60*minutes + 3600*hours +
86400*days, and more than four fields reports UINT32_MAX. -/
theorem get_remaining_time_spec :
    (∀ a p f, get_remaining_time ⟨none, a, p, f⟩ =
        (PRTE_ERR_TAKE_NEXT_OPTION, UINT32_MAX)) ∧
    (∀ j p f, get_remaining_time ⟨some j, false, p, f⟩ =
        (PRTE_ERR_OUT_OF_RESOURCE, UINT32_MAX)) ∧
    (∀ j f, get_remaining_time ⟨some j, true, false, f⟩ =
        (PRTE_ERR_FILE_OPEN_FAILURE, UINT32_MAX)) ∧
    (∀ j, get_remaining_time ⟨some j, true, true, none⟩ =
        (PRTE_ERR_FILE_READ_FAILURE, UINT32_MAX)) ∧
    (∀ j s, 0 ≤ s → s < 4294967296 →
      get_remaining_time ⟨some j, true, true, some [s]⟩ =
        (PRTE_SUCCESS, s.toNat)) ∧
    (∀ j m s, 0 ≤ s → 0 ≤ m → s + 60 * m < 4294967296 →
      get_remaining_time ⟨some j, true, true, some [m, s]⟩ =
        (PRTE_SUCCESS, (s + 60 * m).toNat)) ∧
    (∀ j h m s, 0 ≤ s → 0 ≤ m → 0 ≤ h →
      s + 60 * m + 3600 * h < 4294967296 →
      get_remaining_time ⟨some j, true, true, some [h, m, s]⟩ =
        (PRTE_SUCCESS, (s + 60 * m + 3600 * h).toNat)) ∧
    (∀ j d h m s, 0 ≤ s → 0 ≤ m → 0 ≤ h → 0 ≤ d →
      s + 60 * m + 3600 * h + 86400 * d < 4294967296 →
      get_remaining_time ⟨some j, true, true, some [d, h, m, s]⟩ =
        (PRTE_SUCCESS, (s + 60 * m + 3600 * h + 86400 * d).toNat)) ∧
    (∀ j res, 4 < res.length →
      get_remaining_time ⟨some j, true, true, some res⟩ =
        (PRTE_SUCCESS, UINT32_MAX)) := by
  refine ⟨fun a p f => rfl, fun j p f => rfl, fun j f => rfl, fun j => rfl,
    fun j s h0 h1 => ?_, fun j m s hs hm h1 => ?_,
    fun j h m s hs hm hh h1 => ?_, fun j d h m s hs hm hh hd h1 => ?_,
    fun j res h4 => ?_⟩
  · simp only [get_remaining_time, u32, List.length_cons, List.length_nil,
      List.getD]
    norm_num
    omega
  · simp only [get_remaining_time, u32, List.length_cons, List.length_nil,
      List.getD]
    norm_num
    omega
  · simp only [get_remaining_time, u32, List.length_cons, List.length_nil,
      List.getD]
    norm_num
    omega
  · simp only [get_remaining_time, u32, List.length_cons, List.length_nil,
      List.getD]
    norm_num
    omega
  · simp only [get_remaining_time, u32]
    rw [if_pos h4]
    simp

/-- Witness for C10: squeue output "2:05" (two fields) yields 5 + 60*2 = 125
seconds remaining. -/
theorem get_remaining_time_spec_witness :
    get_remaining_time ⟨some ['1'], true, true, some [2, 5]⟩ =
      (PRTE_SUCCESS, 125) := by
  have h := get_remaining_time_spec.2.2.2.2.2.1 ['1'] 2 5
    (by decide) (by decide) (by decide)
  simpa using h
